import Mathlib

/-!
A verification development for the view layer of the `pylti1.3-django-example`
LTI 1.3 tool (`game/views.py`).  The views are thin controller glue over the
external `pylti1p3` library and the Django framework: each handler is embedded
here as a pure function whose external collaborators (the grade service, the
roster service, the deep-link response builder, the launch cache, the clock)
are passed in as data, and whose outward side effects (service calls made,
responses produced) are returned as values.
-/

namespace Game

/-- A validated launch, as the views observe it through the message-launch
object's accessors: `get_iss()`, `is_deep_link_launch()`, `has_ags()`,
`has_nrps()`, `check_teacher_access()`, `check_teaching_assistant_access()`,
`check_student_access()`, and the two launch-data lookups the views perform
(`sub`, and `resource_link` claim's `id`, each absent-able). -/
structure MessageLaunch where
  iss : String
  is_deep_link_launch : Bool
  has_ags : Bool
  has_nrps : Bool
  check_teacher_access : Bool
  check_teaching_assistant_access : Bool
  check_student_access : Bool
  sub : Option String
  resource_link_id : Option String
  deriving DecidableEq

/-- Python truthiness of an optional string (`if resource_link_id:`): `None`
and the empty string are falsy, every other string is truthy. -/
def pyTruthy : Option String → Bool
  | none => false
  | some s => s != ""

/-- Python `str()` of an optional string as an f-string interpolates it:
`None` renders as the text "None". -/
def pyStr : Option String → String
  | none => "None"
  | some s => s

/-- The outcome of `validate_nonce`: either the check is skipped outright, or
it is delegated to the standard validation of the external library
(`super().validate_nonce()`). -/
inductive NonceValidation where
  | skipped
  | standard
  deriving DecidableEq

/-- `ExtendedDjangoMessageLaunch.validate_nonce` (views.py lines 26-40): skip
nonce validation exactly when the issuer is the `lti-ri.imsglobal.org` test
harness value and the launch is a deep-link launch; otherwise run the
library's standard check. -/
def ExtendedDjangoMessageLaunch.validate_nonce (launch : MessageLaunch) :
    NonceValidation :=
  if launch.iss = "http://imsglobal.org" ∧ launch.is_deep_link_launch = true then
    .skipped
  else
    .standard

/-- `LaunchView.get_template_names` (views.py lines 120-132): template choice
by role and launch type; a launch matching no known role raises
`Exception("You have an unknown role.")`. -/
def LaunchView.get_template_names (launch : MessageLaunch) :
    Except String (List String) :=
  if launch.check_teacher_access || launch.check_teaching_assistant_access then
    if launch.is_deep_link_launch then .ok ["deep_link.html"]
    else .ok ["teacher.html"]
  else if launch.check_student_access then .ok ["student.html"]
  else .error "You have an unknown role."

/-- The `Grade` value object as `SetScoreView.post` builds it with the setter
chain `set_score_given / set_score_maximum / set_timestamp /
set_activity_progress / set_grading_progress / set_user_id`. -/
structure Grade where
  score_given : Int
  score_maximum : Int
  timestamp : String
  activity_progress : Option String
  grading_progress : Option String
  user_id : Option String
  deriving DecidableEq

/-- The `LineItem` value object; each field is `none` until the corresponding
setter has been called. -/
structure LineItem where
  tag : Option String := none
  score_maximum : Option Int := none
  label : Option String := none
  resource_id : Option String := none
  deriving DecidableEq

/-- One score entry of the list the grade service's `get_grades` returns;
the join in the scoreboard reads its `userId` key. -/
structure ScoreEntry where
  userId : String
  resultScore : Int
  deriving DecidableEq

/-- One member dict of the list the roster service's `get_members` returns. -/
structure RosterMember where
  user_id : String
  roles : List String
  deriving DecidableEq

/-- A roster member dict after the scoreboard's annotation loop: the roster
fields plus the derived `teacher` / `student` flags; `score` is the key the
join loop may add later (`none` = the dict has no `score` key). -/
structure Member where
  user_id : String
  roles : List String
  teacher : Bool
  student : Bool
  score : Option ScoreEntry := none
  deriving DecidableEq

/-- An HTTP response as the embedded handlers produce one:
`HttpResponseForbidden` (status 403), a `JsonResponse` (status 200) whose
body holds the success flag and the result string, a plain `HttpResponse`
with an HTML body (status 200), or a rendered scoreboard template
(status 200). -/
inductive Response where
  | forbidden (msg : String)
  | json (success : Bool) (result : String)
  | html (body : String)
  | rendered (members : List Member)
  deriving DecidableEq

/-- The HTTP status code of a response. -/
def Response.status : Response → Nat
  | .forbidden _ => 403
  | .json _ _ => 200
  | .html _ => 200
  | .rendered _ => 200

/-- A call made on the grade service: `ags.put_grade(sc)` is
`put_grade sc none`, `ags.put_grade(sc, sc_line_item)` is
`put_grade sc (some sc_line_item)`. -/
inductive AgsCall where
  | put_grade (grade : Grade) (lineitem : Option LineItem)
  deriving DecidableEq

/-- The assignments-and-grades service object `message_launch.get_ags()`
returns, exposed exactly as the views call it; the outcomes of its network
calls are supplied as data.  `put_grade` yields the response body on success
or the string form of the `LtiServiceException` the call raised. -/
structure AgsService where
  can_create_lineitem : Bool
  find_or_create_lineitem : LineItem → LineItem
  get_grades : Option LineItem → List ScoreEntry
  put_grade : Grade → Option LineItem → Except String String

/-- The Grade value `SetScoreView.post` builds (the `sc` setter chain,
views.py lines 248-254 and 266-272 — both branches build the same value). -/
def SetScoreView.grade (launch : MessageLaunch) (score : Int)
    (activity_progress grading_progress : Option String)
    (timestamp : String) : Grade :=
  { score_given := score, score_maximum := 100, timestamp := timestamp,
    activity_progress := activity_progress,
    grading_progress := grading_progress, user_id := launch.sub }

/-- The LineItem value `SetScoreView.post` builds in the creatable branch
(the `sc_line_item` setter chain, views.py lines 256-261): tag "score",
maximum 100, label "Score", and — only when the launch's resource-link id
is truthy — that id as the resource id. -/
def SetScoreView.lineitem (launch : MessageLaunch) : LineItem :=
  { tag := some "score", score_maximum := some 100, label := some "Score",
    resource_id :=
      if pyTruthy launch.resource_link_id then launch.resource_link_id
      else none }

/-- `SetScoreView.post` (views.py lines 230-278), with the POST parameters
already extracted (`score = int(request.POST.get('score'))`, the two
progress strings as `POST.get` returns them) and the wall-clock timestamp a
parameter.  Returns the response together with the list of `put_grade`
calls made on the grade service. -/
def SetScoreView.post (launch : MessageLaunch) (ags : AgsService)
    (score : Int) (activity_progress grading_progress : Option String)
    (timestamp : String) : Response × List AgsCall :=
  if launch.has_ags = false then
    (.forbidden "This launch doesn't provide a grades service!", [])
  else
    let sc : Grade :=
      SetScoreView.grade launch score activity_progress grading_progress timestamp
    if ags.can_create_lineitem then
      let sc_line_item : LineItem := SetScoreView.lineitem launch
      match ags.put_grade sc (some sc_line_item) with
      | .ok body => (.json true body, [.put_grade sc (some sc_line_item)])
      | .error e => (.json false e, [.put_grade sc (some sc_line_item)])
    else
      match ags.put_grade sc none with
      | .ok body => (.json true body, [.put_grade sc none])
      | .error e => (.json false e, [.put_grade sc none])

/-- The transient deep-link resource `CompleteDeepLinkView` builds: the
launch URL of this tool, a custom-parameter dict carrying the chosen word,
and a generated title. -/
structure DeepLinkResource where
  url : String
  custom_params : List (String × Option String)
  title : String
  deriving DecidableEq

/-- `CompleteDeepLinkView.get_deep_link_resource` (views.py lines 193-203). -/
def CompleteDeepLinkView.get_deep_link_resource (launch_url : String)
    (special_word : Option String) : DeepLinkResource :=
  { url := launch_url,
    custom_params := [("special_word", special_word)],
    title := "Activity with the special word \"" ++ pyStr special_word ++ "\"" }

/-- `CompleteDeepLinkView.post` (views.py lines 205-212).  The external
deep-link response builder `get_deep_link().output_response_form` is passed
in; the second component records each invocation of it (with its argument
list), so [] means the builder was never called. -/
def CompleteDeepLinkView.post (launch : MessageLaunch) (launch_url : String)
    (special_word : Option String)
    (output_response_form : List DeepLinkResource → String) :
    Response × List (List DeepLinkResource) :=
  if launch.is_deep_link_launch = false then
    (.forbidden "Must be a deep link!", [])
  else
    let resource := CompleteDeepLinkView.get_deep_link_resource launch_url special_word
    (.html (output_response_form [resource]), [[resource]])

/-- `CachedLTIView.get_launch_id` (views.py lines 75-76):
`request.POST.get('launch_id', self.kwargs.get('launch_id'))` — the POST
body parameter when present, else the URL-path keyword argument. -/
def CachedLTIView.get_launch_id (post url_kwargs : String → Option String) :
    Option String :=
  match post "launch_id" with
  | some v => some v
  | none => url_kwargs "launch_id"

/-- `SetScoreView.get_launch_id` (views.py lines 227-228):
`self.kwargs['launch_id']` — only the URL-path keyword argument, the POST
body being ignored; a missing kwarg is a `KeyError`. -/
def SetScoreView.get_launch_id (post url_kwargs : String → Option String) :
    Except String String :=
  match url_kwargs "launch_id" with
  | some v => .ok v
  | none => .error "KeyError: launch_id"

/-- Modelled from the spec: `DjangoMessageLaunch.from_cache` is code of the
external `pylti1p3` library, not of this repository.  Per the spec
(section 4.2, "fetch the matching LaunchState from the cache. Fails if no
such id is cached"), it returns the launch state stored under the given id
and fails when the id is absent or the cache holds no entry for it. -/
def DjangoMessageLaunch.from_cache (launch_id : Option String)
    (cache : String → Option MessageLaunch) : Except String MessageLaunch :=
  match launch_id with
  | none => .error "Launch data not found"
  | some lid =>
    match cache lid with
    | none => .error "Launch data not found"
    | some launch => .ok launch

/-- `CachedLTIView.get_message_launch` (views.py lines 78-83): load the
launch id, then the cached launch state under it. -/
def CachedLTIView.get_message_launch (post url_kwargs : String → Option String)
    (cache : String → Option MessageLaunch) : Except String MessageLaunch :=
  DjangoMessageLaunch.from_cache (CachedLTIView.get_launch_id post url_kwargs) cache

/-- The scoreboard's annotation loop (views.py lines 316-319): each roster
member gets derived `teacher` / `student` flags.  The role predicates
(`TeacherRole(data).check()`, `StudentRole(data).check()`) are code of the
external library and are taken as parameters. -/
def annotateMembers (checkTeacher checkStudent : List String → Bool)
    (roster : List RosterMember) : List Member :=
  roster.map fun r =>
    { user_id := r.user_id, roles := r.roles,
      teacher := checkTeacher r.roles, student := checkStudent r.roles }

/-- One assignment of the join loop, `member_by_user[s['userId']]['score'] = s`,
as a pure update.  The dict `member_by_user = {m['user_id']: m for m in members}`
maps a user id to the LAST member of the list with that id (a later
comprehension entry overwrites an earlier one), and it holds references, so
the assignment mutates that member of the list in place. -/
def setScoreOnLast (s : ScoreEntry) : List Member → List Member
  | [] => []
  | m :: rest =>
    if rest.any fun m2 => m2.user_id == s.userId then
      m :: setScoreOnLast s rest
    else if m.user_id = s.userId then
      { m with score := some s } :: rest
    else
      m :: setScoreOnLast s rest

/-- One iteration of the join loop: the unguarded dict lookup
`member_by_user[s['userId']]` raises `KeyError` when no roster member has
that user id, else the member found is given the score. -/
def applyScore (members : List Member) (s : ScoreEntry) :
    Except String (List Member) :=
  if members.any fun m => m.user_id == s.userId then
    .ok (setScoreOnLast s members)
  else
    .error ("KeyError: " ++ s.userId)

/-- The whole join loop (views.py lines 323-325), `for s in scores: ...`:
a raised `KeyError` aborts the loop (and the render) at that entry. -/
def joinScores : List Member → List ScoreEntry → Except String (List Member)
  | members, [] => .ok members
  | members, s :: rest =>
    match applyScore members s with
    | .error e => .error e
    | .ok ms => joinScores ms rest

/-- The score entry a user id holds after the join loop ran with initial
value `d`: the last entry of `scores` with that `userId` (later loop
iterations overwrite earlier ones), else `d`. -/
def lastScoreFor (uid : String) : List ScoreEntry → Option ScoreEntry → Option ScoreEntry
  | [], d => d
  | s :: rest, d => lastScoreFor uid rest (if s.userId == uid then some s else d)

/-- What `ScoreboardView.get_context_data` returns to its caller: either an
`HttpResponseForbidden` object (returned from inside the method at the
capability checks) or the context holding the annotated, score-joined
member list. -/
inductive ContextData where
  | forbidden (msg : String)
  | ctx (members : List Member)
  deriving DecidableEq

/-- `ScoreboardView.get_context_data` (views.py lines 286-327): capability
checks, grade retrieval (scoped to the found-or-created "score" line item
when line items can be created, unscoped otherwise), member annotation, and
the score join.  An uncaught `KeyError` from the join is an `.error`. -/
def ScoreboardView.get_context_data (launch : MessageLaunch) (ags : AgsService)
    (roster : List RosterMember)
    (checkTeacher checkStudent : List String → Bool) :
    Except String ContextData :=
  let resource_link_id := launch.resource_link_id
  if launch.has_nrps = false then .ok (.forbidden "Don't have names and roles!")
  else if launch.has_ags = false then .ok (.forbidden "Don't have grades!")
  else
    let scores :=
      if ags.can_create_lineitem then
        let score_line_item : LineItem :=
          { tag := some "score", score_maximum := some 100, label := some "Score",
            resource_id :=
              if pyTruthy resource_link_id then resource_link_id else none }
        ags.get_grades (some (ags.find_or_create_lineitem score_line_item))
      else
        ags.get_grades none
    let members := annotateMembers checkTeacher checkStudent roster
    match joinScores members scores with
    | .error e => .error e
    | .ok ms => .ok (.ctx ms)

/-- The full scoreboard GET.  `ScoreboardView` has no `get` of its own: it
inherits `django.views.generic.TemplateView.get`, which is
`return self.render_to_response(self.get_context_data(**kwargs))` — the
value `get_context_data` returns is used as the template CONTEXT, never
returned to the client directly.  Django's template backend
(`django.template.context.make_context`) raises
`TypeError("context must be a dict rather than ...")` for any context that
is not a dict — in particular for an `HttpResponseForbidden` object — and
an uncaught exception surfaces as a server error, not as the 403 response
the object described.  A dict context renders the scoreboard template. -/
def ScoreboardView.get (launch : MessageLaunch) (ags : AgsService)
    (roster : List RosterMember)
    (checkTeacher checkStudent : List String → Bool) :
    Except String Response :=
  match ScoreboardView.get_context_data launch ags roster checkTeacher checkStudent with
  | .error e => .error e
  | .ok (.forbidden _) =>
    .error "TypeError: context must be a dict rather than HttpResponseForbidden."
  | .ok (.ctx ms) => .ok (.rendered ms)

/-! ## Concrete fixtures used by the closed theorems and witnesses -/

/-- A cached launch whose platform offers neither capability surprise: a
teacher launch with AGS but without NRPS (roster). -/
def noRosterLaunch : MessageLaunch :=
  { iss := "https://platform.example", is_deep_link_launch := false,
    has_ags := true, has_nrps := false, check_teacher_access := true,
    check_teaching_assistant_access := false, check_student_access := false,
    sub := some "teacher-1", resource_link_id := some "rl-1" }

/-- A full-capability teacher launch (not deep-link). -/
def teacherLaunch : MessageLaunch :=
  { iss := "https://platform.example", is_deep_link_launch := false,
    has_ags := true, has_nrps := true, check_teacher_access := true,
    check_teaching_assistant_access := false, check_student_access := false,
    sub := some "teacher-1", resource_link_id := some "rl-1" }

/-- A student launch. -/
def studentLaunch : MessageLaunch :=
  { teacherLaunch with
    check_teacher_access := false,
    check_student_access := true,
    sub := some "student-1" }

/-- A deep-link launch from the ims test harness issuer. -/
def imsDeepLinkLaunch : MessageLaunch :=
  { teacherLaunch with
    iss := "http://imsglobal.org",
    is_deep_link_launch := true }

/-- A grade service able to create line items, whose network calls succeed. -/
def okAgs : AgsService :=
  { can_create_lineitem := true, find_or_create_lineitem := fun li => li,
    get_grades := fun _ => [], put_grade := fun _ _ => .ok "ok" }

/-- A grade service whose `put_grade` calls raise an `LtiServiceException`. -/
def failingAgs : AgsService :=
  { okAgs with put_grade := fun _ _ => .error "HTTP response [500]: 500 - " }

/-- A POST body carrying only a launch id. -/
def postWithLaunchId : String → Option String :=
  fun k => if k = "launch_id" then some "lid-post" else none

/-- URL-path keyword arguments carrying a launch id. -/
def kwargsWithLaunchId : String → Option String :=
  fun k => if k = "launch_id" then some "lid-url" else none

/-! ## C4: launch template selection -/

/-- C4: for every launch, the launch handler picks the deep-link template for
a teacher/teaching-assistant on a deep-link launch, the teacher template for
a teacher/teaching-assistant otherwise, the student template for a student,
and raises a generic error when no role check succeeds. -/
theorem launch_template_selection (launch : MessageLaunch) :
    ((launch.check_teacher_access || launch.check_teaching_assistant_access) = true →
      launch.is_deep_link_launch = true →
      LaunchView.get_template_names launch = .ok ["deep_link.html"]) ∧
    ((launch.check_teacher_access || launch.check_teaching_assistant_access) = true →
      launch.is_deep_link_launch = false →
      LaunchView.get_template_names launch = .ok ["teacher.html"]) ∧
    ((launch.check_teacher_access || launch.check_teaching_assistant_access) = false →
      launch.check_student_access = true →
      LaunchView.get_template_names launch = .ok ["student.html"]) ∧
    ((launch.check_teacher_access || launch.check_teaching_assistant_access) = false →
      launch.check_student_access = false →
      LaunchView.get_template_names launch = .error "You have an unknown role.") := by
  unfold LaunchView.get_template_names
  refine ⟨fun h1 h2 => ?_, fun h1 h2 => ?_, fun h1 h2 => ?_, fun h1 h2 => ?_⟩ <;>
    simp [h1, h2]

/-- C4 witness: the teacher fixture, not a deep-link launch, gets the teacher
template; the student fixture gets the student template. -/
theorem launch_template_selection_witness :
    LaunchView.get_template_names teacherLaunch = .ok ["teacher.html"] ∧
    LaunchView.get_template_names studentLaunch = .ok ["student.html"] :=
  ⟨(launch_template_selection teacherLaunch).2.1 rfl rfl,
   (launch_template_selection studentLaunch).2.2.1 rfl rfl⟩

/-! ## C6: the nonce-validation deviation -/

/-- C6: nonce verification is skipped if and only if the issuer is the fixed
test-harness value AND the request is a deep-link launch; in every other
case the standard validation of the external library runs. -/
theorem validate_nonce_skip_iff (launch : MessageLaunch) :
    (ExtendedDjangoMessageLaunch.validate_nonce launch = .skipped ↔
      (launch.iss = "http://imsglobal.org" ∧ launch.is_deep_link_launch = true)) ∧
    (ExtendedDjangoMessageLaunch.validate_nonce launch = .standard ↔
      ¬(launch.iss = "http://imsglobal.org" ∧ launch.is_deep_link_launch = true)) := by
  unfold ExtendedDjangoMessageLaunch.validate_nonce
  constructor <;> split <;> simp_all

/-- C6 witness: the test-harness deep-link fixture skips the check; the same
launch as a non-deep-link request does not. -/
theorem validate_nonce_skip_iff_witness :
    ExtendedDjangoMessageLaunch.validate_nonce imsDeepLinkLaunch = .skipped ∧
    ExtendedDjangoMessageLaunch.validate_nonce teacherLaunch = .standard :=
  ⟨(validate_nonce_skip_iff imsDeepLinkLaunch).1.mpr ⟨rfl, rfl⟩,
   (validate_nonce_skip_iff teacherLaunch).2.mpr (by decide)⟩

/-! ## C7: where the launch id is read from -/

/-- C7: cached-state views read the launch id from the POST parameter
`launch_id` when present and fall back to the URL-path parameter otherwise,
while the score-submission handler reads it only from the URL path — no POST
body can change its result. -/
theorem launch_id_sources (post url_kwargs : String → Option String) :
    (∀ v, post "launch_id" = some v →
      CachedLTIView.get_launch_id post url_kwargs = some v) ∧
    (post "launch_id" = none →
      CachedLTIView.get_launch_id post url_kwargs = url_kwargs "launch_id") ∧
    (∀ post2, SetScoreView.get_launch_id post url_kwargs =
      SetScoreView.get_launch_id post2 url_kwargs) ∧
    (∀ v, url_kwargs "launch_id" = some v →
      SetScoreView.get_launch_id post url_kwargs = .ok v) := by
  refine ⟨fun v hv => ?_, fun h => ?_, fun post2 => ?_, fun v hv => ?_⟩
  · simp [CachedLTIView.get_launch_id, hv]
  · simp [CachedLTIView.get_launch_id, h]
  · simp [SetScoreView.get_launch_id]
  · simp [SetScoreView.get_launch_id, hv]

/-- C7 witness: with both a POST value and a URL value present, the cached
view reads the POST one; the score view reads the URL one whatever the POST
body holds. -/
theorem launch_id_sources_witness :
    CachedLTIView.get_launch_id postWithLaunchId kwargsWithLaunchId = some "lid-post" ∧
    SetScoreView.get_launch_id postWithLaunchId kwargsWithLaunchId = .ok "lid-url" :=
  ⟨(launch_id_sources postWithLaunchId kwargsWithLaunchId).1 "lid-post" rfl,
   (launch_id_sources postWithLaunchId kwargsWithLaunchId).2.2.2 "lid-url" rfl⟩

/-! ## C8: cached state fails closed -/

/-- C8: a view relying on cached launch state fails when the supplied launch
id is absent or names no cache entry, and any launch state it does read was
present in the cache under the supplied id (the cache is populated only by
the validation path). -/
theorem cached_launch_fails_closed (post url_kwargs : String → Option String)
    (cache : String → Option MessageLaunch) :
    (CachedLTIView.get_launch_id post url_kwargs = none →
      CachedLTIView.get_message_launch post url_kwargs cache =
        .error "Launch data not found") ∧
    (∀ lid, CachedLTIView.get_launch_id post url_kwargs = some lid →
      cache lid = none →
      CachedLTIView.get_message_launch post url_kwargs cache =
        .error "Launch data not found") ∧
    (∀ launch, CachedLTIView.get_message_launch post url_kwargs cache = .ok launch →
      ∃ lid, CachedLTIView.get_launch_id post url_kwargs = some lid ∧
        cache lid = some launch) := by
  unfold CachedLTIView.get_message_launch DjangoMessageLaunch.from_cache
  refine ⟨fun h => ?_, fun lid hlid hcache => ?_, fun launch h => ?_⟩
  · simp [h]
  · simp [hlid, hcache]
  · rcases hid : CachedLTIView.get_launch_id post url_kwargs with _ | lid
    · simp [hid] at h
    · rcases hcache : cache lid with _ | st
      · simp [hid, hcache] at h
      · simp only [hid, hcache, Except.ok.injEq] at h
        exact ⟨lid, rfl, by rw [hcache, h]⟩

/-- C8 witness: an empty cache makes the cached-state load fail even though
a launch id is supplied. -/
theorem cached_launch_fails_closed_witness :
    CachedLTIView.get_message_launch postWithLaunchId kwargsWithLaunchId
      (fun _ => none) = .error "Launch data not found" :=
  (cached_launch_fails_closed postWithLaunchId kwargsWithLaunchId
    (fun _ => none)).2.1 "lid-post" rfl rfl

/-! ## C1: what the score submission sends to the grade service -/

/-- Helper: with AGS present, the score handler makes exactly one
`put_grade` call — the built grade, with the built line item exactly when
the service can create line items. -/
theorem set_score_trace (launch : MessageLaunch) (ags : AgsService)
    (score : Int) (activity_progress grading_progress : Option String)
    (timestamp : String) (hags : launch.has_ags = true) :
    (SetScoreView.post launch ags score activity_progress grading_progress
      timestamp).2 =
      [AgsCall.put_grade
        (SetScoreView.grade launch score activity_progress grading_progress timestamp)
        (if ags.can_create_lineitem then some (SetScoreView.lineitem launch)
         else none)] := by
  unfold SetScoreView.post
  simp only [hags]
  rcases hcc : ags.can_create_lineitem
  · simp only [hcc, Bool.false_eq_true, if_false]
    rcases hpg : ags.put_grade
        (SetScoreView.grade launch score activity_progress grading_progress timestamp)
        none with body | e <;> simp [hpg]
  · simp only [hcc, if_true]
    rcases hpg : ags.put_grade
        (SetScoreView.grade launch score activity_progress grading_progress timestamp)
        (some (SetScoreView.lineitem launch)) with body | e <;> simp [hpg]

/-- C1: on a score-submission POST with the AGS capability present, when the
service reports that a line item can be created (the "no gradebook line
item exists yet" branch), exactly one `put_grade` call is made, carrying
the grade together with a line item tagged "score", with score maximum 100
and label "Score", whose resource id is the launch's resource-link id when
that id is present (non-empty); when a line item already exists, exactly
one `put_grade` call is made carrying the grade alone. -/
theorem set_score_lineitem_shape (launch : MessageLaunch) (ags : AgsService)
    (score : Int) (activity_progress grading_progress : Option String)
    (timestamp : String) (hags : launch.has_ags = true) :
    (ags.can_create_lineitem = true →
      ∃ g li,
        (SetScoreView.post launch ags score activity_progress grading_progress
          timestamp).2 = [AgsCall.put_grade g (some li)] ∧
        li.tag = some "score" ∧ li.score_maximum = some 100 ∧
        li.label = some "Score" ∧
        (pyTruthy launch.resource_link_id = true →
          li.resource_id = launch.resource_link_id) ∧
        g.score_given = score ∧ g.score_maximum = 100 ∧
        g.user_id = launch.sub) ∧
    (ags.can_create_lineitem = false →
      ∃ g,
        (SetScoreView.post launch ags score activity_progress grading_progress
          timestamp).2 = [AgsCall.put_grade g none] ∧
        g.score_given = score ∧ g.score_maximum = 100 ∧
        g.user_id = launch.sub) := by
  have htrace := set_score_trace launch ags score activity_progress
    grading_progress timestamp hags
  constructor
  · intro hcc
    refine ⟨SetScoreView.grade launch score activity_progress grading_progress
        timestamp, SetScoreView.lineitem launch, ?_, rfl, rfl, rfl,
        fun h => ?_, rfl, rfl, rfl⟩
    · rw [htrace, hcc, if_pos rfl]
    · show (if pyTruthy launch.resource_link_id then launch.resource_link_id
        else none) = launch.resource_link_id
      rw [if_pos h]
  · intro hcc
    refine ⟨SetScoreView.grade launch score activity_progress grading_progress
        timestamp, ?_, rfl, rfl, rfl⟩
    rw [htrace, hcc]
    simp

/-- C1 witness: the spec's test input (score 85, progress strings given) on a
launch with AGS; the creatable-line-item service fixture yields the tagged
line item, the non-creatable one a bare grade submission. -/
theorem set_score_lineitem_shape_witness :
    teacherLaunch.has_ags = true ∧
    (∃ g li,
      (SetScoreView.post teacherLaunch okAgs 85 (some "Completed")
        (some "FullyGraded") "2020-01-01T00:00:00Z").2 =
          [AgsCall.put_grade g (some li)] ∧
      li.tag = some "score" ∧ li.score_maximum = some 100 ∧
      li.label = some "Score" ∧
      (pyTruthy teacherLaunch.resource_link_id = true →
        li.resource_id = teacherLaunch.resource_link_id) ∧
      g.score_given = 85 ∧ g.score_maximum = 100 ∧
      g.user_id = teacherLaunch.sub) :=
  ⟨rfl,
   (set_score_lineitem_shape teacherLaunch okAgs 85 (some "Completed")
     (some "FullyGraded") "2020-01-01T00:00:00Z" rfl).1 rfl⟩

/-! ## C3: grade-service failure is degraded to a JSON payload -/

/-- C3: when every `put_grade` call raises an `LtiServiceException`, the
score handler (on a launch with AGS) answers with a JSON body carrying
`success = false` and the string form of the error, and the HTTP status of
that response is 200 — the failure is never an HTTP failure status. -/
theorem set_score_service_error_is_json (launch : MessageLaunch)
    (ags : AgsService) (score : Int)
    (activity_progress grading_progress : Option String) (timestamp : String)
    (e : String) (hags : launch.has_ags = true)
    (herr : ∀ g li, ags.put_grade g li = .error e) :
    (SetScoreView.post launch ags score activity_progress grading_progress
      timestamp).1 = .json false e ∧
    ((SetScoreView.post launch ags score activity_progress grading_progress
      timestamp).1).status = 200 := by
  have hmain : (SetScoreView.post launch ags score activity_progress
      grading_progress timestamp).1 = .json false e := by
    unfold SetScoreView.post
    simp only [hags, Bool.false_eq_true, if_false]
    rcases hcc : ags.can_create_lineitem <;> simp [herr]
  exact ⟨hmain, by rw [hmain]; rfl⟩

/-- C3 witness: the failing-service fixture on the teacher launch yields the
structured failure payload with status 200. -/
theorem set_score_service_error_is_json_witness :
    (SetScoreView.post teacherLaunch failingAgs 85 (some "Completed")
      (some "FullyGraded") "2020-01-01T00:00:00Z").1 =
        .json false "HTTP response [500]: 500 - " ∧
    ((SetScoreView.post teacherLaunch failingAgs 85 (some "Completed")
      (some "FullyGraded") "2020-01-01T00:00:00Z").1).status = 200 :=
  set_score_service_error_is_json teacherLaunch failingAgs 85 (some "Completed")
    (some "FullyGraded") "2020-01-01T00:00:00Z" "HTTP response [500]: 500 - "
    rfl (fun _ _ => rfl)

/-! ## C5: deep-link completion refuses non-deep-link launches with a 403 -/

/-- C5: when the cached launch is not a deep-link launch, the completion
handler answers 403 ("Must be a deep link!") and never invokes the external
deep-link response builder; when it is, it builds exactly one resource and
returns the builder's HTML form response for that single resource. -/
theorem complete_deep_link_post_spec (launch : MessageLaunch)
    (launch_url : String) (special_word : Option String)
    (output_response_form : List DeepLinkResource → String) :
    (launch.is_deep_link_launch = false →
      CompleteDeepLinkView.post launch launch_url special_word
        output_response_form = (.forbidden "Must be a deep link!", []) ∧
      ((CompleteDeepLinkView.post launch launch_url special_word
        output_response_form).1).status = 403) ∧
    (launch.is_deep_link_launch = true →
      ∃ r, (CompleteDeepLinkView.post launch launch_url special_word
          output_response_form).2 = [[r]] ∧
        (CompleteDeepLinkView.post launch launch_url special_word
          output_response_form).1 = .html (output_response_form [r])) := by
  unfold CompleteDeepLinkView.post
  constructor
  · intro h
    rw [h]
    exact ⟨rfl, rfl⟩
  · intro h
    rw [h]
    exact ⟨CompleteDeepLinkView.get_deep_link_resource launch_url special_word,
      rfl, rfl⟩

/-- C5 witness: a non-deep-link cached launch (the teacher fixture) gets the
403 with no builder call; the deep-link fixture yields one resource and the
builder's HTML. -/
theorem complete_deep_link_post_spec_witness :
    (CompleteDeepLinkView.post teacherLaunch "https://tool.example/launch/"
      (some "zebra") (fun _ => "FORM") = (.forbidden "Must be a deep link!", []) ∧
      ((CompleteDeepLinkView.post teacherLaunch "https://tool.example/launch/"
        (some "zebra") (fun _ => "FORM")).1).status = 403) ∧
    (∃ r, (CompleteDeepLinkView.post imsDeepLinkLaunch "https://tool.example/launch/"
        (some "zebra") (fun _ => "FORM")).2 = [[r]] ∧
      (CompleteDeepLinkView.post imsDeepLinkLaunch "https://tool.example/launch/"
        (some "zebra") (fun _ => "FORM")).1 = .html "FORM") :=
  ⟨(complete_deep_link_post_spec teacherLaunch "https://tool.example/launch/"
      (some "zebra") (fun _ => "FORM")).1 rfl,
   (complete_deep_link_post_spec imsDeepLinkLaunch "https://tool.example/launch/"
      (some "zebra") (fun _ => "FORM")).2 rfl⟩

/-! ## C2: the scoreboard capability check never reaches the client as a 403 -/

/-- C2 (code bug): on a cached launch without the roster capability the
handler does build an `HttpResponseForbidden` — but it returns it from
`get_context_data`, whose value `TemplateView.get` passes to the template
renderer as the context, so the client receives a TypeError-driven server
error and never the 403 the claim and spec describe. -/
theorem scoreboard_missing_nrps_no_403 :
    ScoreboardView.get_context_data noRosterLaunch okAgs []
      (fun _ => false) (fun _ => false) =
        .ok (.forbidden "Don't have names and roles!") ∧
    ScoreboardView.get noRosterLaunch okAgs [] (fun _ => false) (fun _ => false) =
      .error "TypeError: context must be a dict rather than HttpResponseForbidden." :=
  ⟨rfl, rfl⟩

/-! ## Helper lemmas about the scoreboard join -/

/-- Helper: the join's score assignment changes no user id. -/
theorem setScoreOnLast_map_user_id (s : ScoreEntry) : ∀ members : List Member,
    (setScoreOnLast s members).map Member.user_id = members.map Member.user_id
  | [] => rfl
  | m :: rest => by
    unfold setScoreOnLast
    split
    · simp [setScoreOnLast_map_user_id s rest]
    · split
      · simp
      · simp [setScoreOnLast_map_user_id s rest]

/-- Helper (proof-internal): the score assignment written pointwise; it
coincides with `setScoreOnLast` exactly on member lists whose user ids are
pairwise distinct. -/
def updateScore (s : ScoreEntry) (members : List Member) : List Member :=
  members.map fun m =>
    if m.user_id = s.userId then { m with score := some s } else m

/-- Helper: `any` over user-id equality is false when no member matches. -/
theorem any_user_id_false (uid : String) : ∀ members : List Member,
    (∀ m ∈ members, m.user_id ≠ uid) →
    (members.any fun m => m.user_id == uid) = false
  | [], _ => rfl
  | m :: rest, h => by
    simp only [List.any_cons, Bool.or_eq_false_iff]
    constructor
    · exact beq_eq_false_iff_ne.mpr (h m (List.mem_cons_self m rest))
    · exact any_user_id_false uid rest fun m2 hm2 => h m2 (List.mem_cons_of_mem m hm2)

/-- Helper: the pointwise update leaves a list without a matching member
unchanged. -/
theorem updateScore_eq_self (s : ScoreEntry) : ∀ members : List Member,
    (∀ m ∈ members, m.user_id ≠ s.userId) → updateScore s members = members
  | [], _ => rfl
  | m :: rest, h => by
    unfold updateScore
    simp only [List.map_cons]
    rw [if_neg (h m (List.mem_cons_self m rest))]
    have hrest := updateScore_eq_self s rest
      fun m2 hm2 => h m2 (List.mem_cons_of_mem m hm2)
    unfold updateScore at hrest
    rw [hrest]

/-- Helper: on distinct user ids the last-occurrence assignment is the
pointwise update. -/
theorem setScoreOnLast_eq_updateScore (s : ScoreEntry) : ∀ members : List Member,
    (members.map Member.user_id).Nodup →
    setScoreOnLast s members = updateScore s members
  | [], _ => rfl
  | m :: rest, hnd => by
    simp only [List.map_cons, List.nodup_cons] at hnd
    obtain ⟨hnotin, hndrest⟩ := hnd
    unfold setScoreOnLast updateScore
    simp only [List.map_cons]
    by_cases hm : m.user_id = s.userId
    · have hnomatch : ∀ m2 ∈ rest, m2.user_id ≠ s.userId := by
        intro m2 hm2 heq
        exact hnotin (by rw [hm, ← heq]; exact List.mem_map_of_mem Member.user_id hm2)
      rw [any_user_id_false s.userId rest hnomatch]
      simp only [Bool.false_eq_true, if_false, if_pos hm]
      have hrest := updateScore_eq_self s rest hnomatch
      unfold updateScore at hrest
      rw [hrest]
    · have hup := setScoreOnLast_eq_updateScore s rest hndrest
      unfold updateScore at hup
      rcases hany : (rest.any fun m2 => m2.user_id == s.userId) with _ | _
      · simp only [Bool.false_eq_true, if_false, if_neg hm]
        rw [hup]
      · simp only [if_true, if_neg hm]
        rw [hup]

/-- Helper: the pointwise update changes no user id. -/
theorem updateScore_map_user_id (s : ScoreEntry) (members : List Member) :
    (updateScore s members).map Member.user_id = members.map Member.user_id := by
  unfold updateScore
  rw [List.map_map]
  have hfun : (Member.user_id ∘ fun m =>
      if m.user_id = s.userId then { m with score := some s } else m) =
      Member.user_id := by
    funext m
    by_cases hm : m.user_id = s.userId <;> simp [Function.comp, hm]
  rw [hfun]

/-- Helper: `lastScoreFor` either keeps the initial value because no entry
matches, or yields some matching entry of the list. -/
theorem lastScoreFor_cases (uid : String) : ∀ (scores : List ScoreEntry)
    (d : Option ScoreEntry),
    (lastScoreFor uid scores d = d ∧ ∀ s ∈ scores, s.userId ≠ uid) ∨
    (∃ s ∈ scores, s.userId = uid ∧ lastScoreFor uid scores d = some s)
  | [], d => Or.inl ⟨rfl, by simp⟩
  | s :: rest, d => by
    have hstep : lastScoreFor uid (s :: rest) d =
        lastScoreFor uid rest (if s.userId == uid then some s else d) := rfl
    by_cases hs : s.userId = uid
    · rw [hstep, if_pos (by exact beq_iff_eq.mpr hs)]
      rcases lastScoreFor_cases uid rest (some s) with ⟨heq, _⟩ | ⟨s2, hs2, hs2u, heq⟩
      · exact Or.inr ⟨s, List.mem_cons_self s rest, hs, heq⟩
      · exact Or.inr ⟨s2, List.mem_cons_of_mem s hs2, hs2u, heq⟩
    · rw [hstep, if_neg (by simpa using hs)]
      rcases lastScoreFor_cases uid rest d with ⟨heq, hall⟩ | ⟨s2, hs2, hs2u, heq⟩
      · refine Or.inl ⟨heq, ?_⟩
        intro s2 hs2
        rcases List.mem_cons.mp hs2 with rfl | hs2rest
        · exact hs
        · exact hall s2 hs2rest
      · exact Or.inr ⟨s2, List.mem_cons_of_mem s hs2, hs2u, heq⟩

/-- Helper: on a roster with pairwise-distinct user ids, a join that
completed equals the pointwise map giving each member the last matching
score entry (and keeping its previous score field when none matches). -/
theorem joinScores_ok_eq : ∀ (scores : List ScoreEntry) (members joined : List Member),
    (members.map Member.user_id).Nodup →
    joinScores members scores = .ok joined →
    joined = members.map fun m =>
      { m with score := lastScoreFor m.user_id scores m.score }
  | [], members, joined, _, hok => by
    unfold joinScores at hok
    injection hok with hok
    subst hok
    have : ∀ m : Member, ({ m with score := m.score } : Member) = m := fun _ => rfl
    unfold lastScoreFor
    simp [this]
  | s :: rest, members, joined, hnd, hok => by
    unfold joinScores applyScore at hok
    rcases hany : (members.any fun m => m.user_id == s.userId) with _ | _
    · rw [hany] at hok
      simp at hok
    · rw [hany] at hok
      simp only [if_true] at hok
      rw [setScoreOnLast_eq_updateScore s members hnd] at hok
      have hnd2 : ((updateScore s members).map Member.user_id).Nodup := by
        rw [updateScore_map_user_id]
        exact hnd
      have hrec := joinScores_ok_eq rest (updateScore s members) joined hnd2 hok
      rw [hrec]
      unfold updateScore
      rw [List.map_map]
      refine List.map_congr_left fun m _ => ?_
      by_cases hm : m.user_id = s.userId
      · simp only [Function.comp_apply, if_pos hm]
        show ({ m with score := lastScoreFor m.user_id rest (some s) } : Member) =
          { m with score :=
            lastScoreFor m.user_id rest (if s.userId == m.user_id then some s else m.score) }
        rw [if_pos (by exact beq_iff_eq.mpr hm.symm)]
      · simp only [Function.comp_apply, if_neg hm]
        show ({ m with score := lastScoreFor m.user_id rest m.score } : Member) =
          { m with score :=
            lastScoreFor m.user_id rest (if s.userId == m.user_id then some s else m.score) }
        rw [if_neg (by simp; exact fun h => hm h.symm)]

/-! ## C9: join semantics — matching members carry the entry, others no field -/

/-- C9: after the scoreboard join over an annotated roster (with distinct
user ids, as subject ids are), the joined list keeps the roster's user ids,
every member with a matching score entry carries a matching entry in its
score field, and every member with no matching entry has no score field at
all (its score is `none`, not zero). -/
theorem scoreboard_join_score_fields
    (checkTeacher checkStudent : List String → Bool)
    (roster : List RosterMember) (scores : List ScoreEntry)
    (joined : List Member)
    (hnodup : (roster.map RosterMember.user_id).Nodup)
    (hok : joinScores (annotateMembers checkTeacher checkStudent roster) scores
      = .ok joined) :
    joined.map Member.user_id = roster.map RosterMember.user_id ∧
    ∀ m ∈ joined,
      ((∃ s ∈ scores, s.userId = m.user_id) →
        ∃ s ∈ scores, s.userId = m.user_id ∧ m.score = some s) ∧
      ((∀ s ∈ scores, s.userId ≠ m.user_id) → m.score = none) := by
  have hann : (annotateMembers checkTeacher checkStudent roster).map Member.user_id
      = roster.map RosterMember.user_id := by
    unfold annotateMembers
    rw [List.map_map]
    rfl
  have hnd : ((annotateMembers checkTeacher checkStudent roster).map
      Member.user_id).Nodup := by
    rw [hann]
    exact hnodup
  have heq := joinScores_ok_eq scores _ joined hnd hok
  constructor
  · rw [heq, List.map_map, ← hann]
    rfl
  · intro m hm
    rw [heq] at hm
    obtain ⟨m0, hm0, rfl⟩ := List.mem_map.mp hm
    unfold annotateMembers at hm0
    obtain ⟨r, _, rfl⟩ := List.mem_map.mp hm0
    rcases lastScoreFor_cases r.user_id scores none with ⟨heq2, hall⟩ |
      ⟨s, hsmem, hsu, heq2⟩
    · constructor
      · rintro ⟨s, hsmem, hsu⟩
        exact absurd hsu (hall s hsmem)
      · intro _
        exact heq2
    · constructor
      · intro _
        exact ⟨s, hsmem, hsu, heq2⟩
      · intro hnone
        exact absurd hsu (hnone s hsmem)

/-- Roster fixture for the witnesses: three members with distinct ids. -/
def wRoster : List RosterMember :=
  [{ user_id := "u1", roles := ["Learner"] },
   { user_id := "u2", roles := ["Learner"] },
   { user_id := "u3", roles := ["Learner"] }]

/-- Score entries for two of the three roster members. -/
def wScores : List ScoreEntry :=
  [{ userId := "u1", resultScore := 40 },
   { userId := "u2", resultScore := 90 }]

/-- The joined member list the fixture produces. -/
def wJoined : List Member :=
  [{ user_id := "u1", roles := ["Learner"], teacher := false, student := true,
     score := some { userId := "u1", resultScore := 40 } },
   { user_id := "u2", roles := ["Learner"], teacher := false, student := true,
     score := some { userId := "u2", resultScore := 90 } },
   { user_id := "u3", roles := ["Learner"], teacher := false, student := true }]

/-- C9 witness: the spec's 3-member roster with 2 score entries — the two
matched members carry their entries, the third has no score field. -/
theorem scoreboard_join_score_fields_witness :
    (wRoster.map RosterMember.user_id).Nodup ∧
    joinScores (annotateMembers (fun _ => false) (fun _ => true) wRoster) wScores
      = .ok wJoined ∧
    (wJoined.map Member.user_id = wRoster.map RosterMember.user_id ∧
      ∀ m ∈ wJoined,
        ((∃ s ∈ wScores, s.userId = m.user_id) →
          ∃ s ∈ wScores, s.userId = m.user_id ∧ m.score = some s) ∧
        ((∀ s ∈ wScores, s.userId ≠ m.user_id) → m.score = none)) :=
  ⟨by decide, by rfl,
   scoreboard_join_score_fields (fun _ => false) (fun _ => true) wRoster wScores
     wJoined (by decide) (by rfl)⟩

/-! ## C10: a score entry with no roster member aborts the render -/

/-- C10: the join is total only when every score entry's userId matches some
roster member: an entry matching no member hits the unguarded dict lookup,
which raises an uncaught KeyError, so the join (and with it the scoreboard
render) fails instead of skipping the entry. -/
theorem scoreboard_join_unmatched_raises (members : List Member)
    (scores : List ScoreEntry)
    (hbad : ∃ s ∈ scores, ∀ m ∈ members, m.user_id ≠ s.userId) :
    ∃ e, joinScores members scores = .error e := by
  induction scores generalizing members with
  | nil =>
    obtain ⟨s, hsmem, _⟩ := hbad
    exact absurd hsmem (List.not_mem_nil s)
  | cons s rest ih =>
    rcases hany : (members.any fun m => m.user_id == s.userId) with _ | _
    · refine ⟨"KeyError: " ++ s.userId, ?_⟩
      unfold joinScores applyScore
      rw [hany]
      rfl
    · obtain ⟨s0, hs0mem, hs0⟩ := hbad
      rcases List.mem_cons.mp hs0mem with rfl | hs0rest
      · exfalso
        rw [List.any_eq_true] at hany
        obtain ⟨m, hmmem, hbeq⟩ := hany
        exact hs0 m hmmem (by simpa using hbeq)
      · have hmm : ∀ m ∈ setScoreOnLast s members, m.user_id ≠ s0.userId := by
          intro m hm
          have hin : m.user_id ∈ (setScoreOnLast s members).map Member.user_id :=
            List.mem_map_of_mem Member.user_id hm
          rw [setScoreOnLast_map_user_id] at hin
          obtain ⟨m0, hm0mem, hm0eq⟩ := List.mem_map.mp hin
          rw [← hm0eq]
          exact hs0 m0 hm0mem
        obtain ⟨e, he⟩ := ih (setScoreOnLast s members) ⟨s0, hs0rest, hmm⟩
        refine ⟨e, ?_⟩
        unfold joinScores applyScore
        rw [hany]
        simpa using he

/-- Member fixture: a single roster member. -/
def wLoneMember : List Member :=
  [{ user_id := "u1", roles := ["Learner"], teacher := false, student := true }]

/-- A score entry whose userId names nobody on the roster. -/
def wGhostScores : List ScoreEntry :=
  [{ userId := "ghost", resultScore := 10 }]

/-- C10 witness: a score entry for an unknown user makes the join raise. -/
theorem scoreboard_join_unmatched_raises_witness :
    (∃ s ∈ wGhostScores, ∀ m ∈ wLoneMember, m.user_id ≠ s.userId) ∧
    ∃ e, joinScores wLoneMember wGhostScores = .error e :=
  ⟨by decide, scoreboard_join_unmatched_raises wLoneMember wGhostScores (by decide)⟩

end Game
